import Mathlib

/-!
Shallow embedding of the quality-assessment pricing engine of the CMS
repository (src/assessment/models.py) together with the supplier-payable
helper of src/store/signals.py.  Monetary and percentage quantities are
Python Decimal values; Decimal addition, subtraction and multiplication
are exact, so they are modelled as rational numbers, with explicit
half-up rounding where the source calls quantize.
-/

/-- Integer obtained from a rational by scaling with 100 and rounding
half away from zero, which is what Python Decimal quantize with
ROUND_HALF_UP does at two decimal places. -/
def hup100 (x : ℚ) : ℤ :=
  if 0 ≤ x then ⌊x * 100 + 1/2⌋ else -⌊(-x) * 100 + 1/2⌋

/-- Embedding of clamp2 (assessment/models.py, lines 8-13): quantize to
two decimal places with rounding ROUND_HALF_UP.  The None case of the
source is handled at each call site by the Option type. -/
def clamp2 (x : ℚ) : ℚ := (hup100 x : ℚ) / 100

/-- Embedding of the Assessment model fields used by the computations
(assessment/models.py, lines 41-71).  ref_price is carried as an Option
because compute_final_price tests it against None; discretion likewise
(the model default is 0.00).  The percentage fields are non-nullable
model fields. -/
structure Assessment where
  ref_price : Option ℚ
  discretion : Option ℚ := some 0
  moisture_content : ℚ
  group1_defects : ℚ
  group2_defects : ℚ
  below_screen_12 : ℚ
  pods : ℚ
  husks : ℚ
  stones : ℚ
  fm : ℚ := 0
  offered_price : ℚ := 0
  clean_outturn : Option ℚ := none
  derived_outturn : Option ℚ := none
  final_price : Option ℚ := none
  decision : String := "Pending"
  decision_reasons : String := ""
deriving DecidableEq

/-- Embedding of the local helper excess inside compute_derived_outturn
(assessment/models.py, lines 113-114). -/
def excess (x base : ℚ) : ℚ := if x > base then x - base else 0

/-- Embedding of Assessment.compute_clean_outturn (assessment/models.py,
lines 86-97). -/
def compute_clean_outturn (a : Assessment) : ℚ :=
  clamp2 (100 - a.group1_defects - a.group2_defects - a.pods - a.husks
            - a.stones - a.below_screen_12)

/-- Embedding of Assessment.compute_derived_outturn (assessment/models.py,
lines 99-124). -/
def compute_derived_outturn (a : Assessment) : Option ℚ :=
  if a.below_screen_12 > 3 then none
  else some (clamp2 (100 - excess a.moisture_content 14
                         - excess a.group1_defects 4
                         - excess a.group2_defects 10
                         - a.pods - a.husks - a.stones
                         - excess a.below_screen_12 1))

/-- Embedding of Assessment.compute_rejection_reasons
(assessment/models.py, lines 126-145).  Each threshold check appends one
reason string; the interpolated values are rendered with toString. -/
def compute_rejection_reasons (a : Assessment) : List String :=
  (if a.below_screen_12 > 3 then
      ["Below screen 12 " ++ toString a.below_screen_12 ++ "% > 3%"] else [])
  ++ (if a.moisture_content > 33/2 then
      ["Moisture " ++ toString a.moisture_content ++ "% > 16.5%"] else [])
  ++ (if a.group1_defects > 10 then
      ["Group 1 defects " ++ toString a.group1_defects ++ "% > 10%"] else [])
  ++ (if a.group2_defects > 25 then
      ["Group 2 defects " ++ toString a.group2_defects ++ "% > 25%"] else [])
  ++ (if a.pods > 6 then
      ["Pods " ++ toString a.pods ++ "% > 6%"] else [])
  ++ (if a.husks > 6 then
      ["Husks " ++ toString a.husks ++ "% > 6%"] else [])
  ++ (if a.stones > 6 then
      ["Stones " ++ toString a.stones ++ "% > 6%"] else [])
  ++ (if a.pods + a.husks + a.stones > 6 then
      ["Pods+Husks+Stones " ++ toString (clamp2 (a.pods + a.husks + a.stones))
        ++ "% > 6%"] else [])

/-- Bonus condition of compute_final_price (assessment/models.py, lines
169-170). -/
def bonusCond (a : Assessment) (d : ℚ) : Prop :=
  a.group1_defects ≤ 1 ∧ a.group2_defects ≤ 5 ∧ a.moisture_content ≤ 13
    ∧ d ≥ 80 ∧ a.pods = 0 ∧ a.husks = 0 ∧ a.stones = 0
    ∧ a.below_screen_12 ≤ 1

instance (a : Assessment) (d : ℚ) : Decidable (bonusCond a d) :=
  inferInstanceAs (Decidable (_ ∧ _ ∧ _ ∧ _ ∧ _ ∧ _ ∧ _ ∧ _))

/-- Price computation of compute_final_price after the early-return guard
(assessment/models.py, lines 157-204), with reference price and derived
outturn passed explicitly.  The sequence of let bindings mirrors the
sequence of in-place updates of price in the source. -/
def rawPrice (a : Assessment) (reference_price d : ℚ) : ℚ :=
  let price := reference_price
  let price := if bonusCond a d then price + 2000 else price
  let price := if a.moisture_content ≥ 14 then
      price - (a.moisture_content - 14) * reference_price * (2/1000) else price
  let price := if a.group1_defects > 4 then
      price - (a.group1_defects - 4) * 50 else price
  let price := if a.group2_defects > 10 then
      price - (a.group2_defects - 10) * 20 else price
  let price := if d < 78 then price - (78 - d) * 50
      else if d > 82 then price + (d - 82) * 50 else price
  let price := price - a.pods * 10 - a.husks * 10 - a.stones * 20
  let price := if a.below_screen_12 > 1 then
      price - (a.below_screen_12 - 1) * 30 else price
  let price := match a.discretion with
      | some disc => price + disc
      | none => price
  price

/-- Embedding of Assessment.compute_final_price (assessment/models.py,
lines 147-206): None when a rejection reason fired, the derived outturn
is None, or the reference price is None; otherwise the price formula
clamped at zero after half-up rounding to two decimals. -/
def compute_final_price (a : Assessment) : Option ℚ :=
  match compute_rejection_reasons a, compute_derived_outturn a, a.ref_price with
  | [], some d, some ref => some (max 0 (clamp2 (rawPrice a ref d)))
  | _, _, _ => none

/-- Embedding of Assessment.refresh_computed_fields (assessment/models.py,
lines 209-218). -/
def refresh_computed_fields (a : Assessment) : Assessment :=
  let reasons := compute_rejection_reasons a
  { a with
    clean_outturn := some (compute_clean_outturn a)
    derived_outturn := compute_derived_outturn a
    decision := if reasons ≠ [] then "Rejected"
      else if (compute_derived_outturn a).isSome then "Accepted" else "Pending"
    decision_reasons := String.intercalate "\n" reasons
    final_price := compute_final_price a }

/-- Embedding of the property Assessment.analysis_price_ugx
(assessment/models.py, lines 236-239): it returns offered_price. -/
def analysis_price_ugx (a : Assessment) : ℚ := a.offered_price

/-- The quantity field of CoffeePurchase (store/models.py, line 87), a
PositiveIntegerField in kilograms. -/
structure CoffeePurchase where
  quantity : ℕ := 0
deriving DecidableEq

/-- Rounding half to even of a rational to an integer, the default
rounding mode of Python Decimal quantize. -/
def roundHalfEven (y : ℚ) : ℤ :=
  let f := ⌊y⌋
  let r := y - (f : ℚ)
  if r < 1/2 then f else if 1/2 < r then f + 1
  else if f % 2 = 0 then f else f + 1

/-- Quantization to one decimal place with the default half-even
rounding, as performed by quantize(Decimal("0.1")). -/
def quantize_tenth (x : ℚ) : ℚ := (roundHalfEven (x * 10) : ℚ) / 10

/-- Embedding of the helper _q2 (store/signals.py, lines 12-13): treat
None as 0 and quantize to one decimal place. -/
def _q2 (x : Option ℚ) : ℚ := quantize_tenth (x.getD 0)

/-- Embedding of total_payable (store/signals.py, lines 40-43): the
analysis price (the offered price) times the purchase quantity, passed
through _q2.  The two `or Decimal("0")` guards of the source are the
identity here because both operands are non-null. -/
def total_payable (assessment : Assessment) (coffee : CoffeePurchase) : ℚ :=
  let price := analysis_price_ugx assessment
  let qty : ℚ := (coffee.quantity : ℚ)
  _q2 (some (price * qty))

/-! Helper lemmas shared by the claim theorems. -/

lemma excess_eq_max (x base : ℚ) : excess x base = max 0 (x - base) := by
  unfold excess
  rcases lt_or_le base x with h | h
  · rw [if_pos h, max_eq_right (by linarith)]
  · rw [if_neg (not_lt.mpr h), max_eq_left (by linarith)]

lemma excess_mono {x y : ℚ} (base : ℚ) (h : x ≤ y) :
    excess x base ≤ excess y base := by
  unfold excess
  split_ifs <;> linarith

lemma hup100_mono {x y : ℚ} (h : x ≤ y) : hup100 x ≤ hup100 y := by
  unfold hup100
  split_ifs with hx hy
  · exact Int.floor_mono (by linarith)
  · exact absurd (le_trans hx h) hy
  · have h1 : (0:ℤ) ≤ ⌊y * 100 + 1/2⌋ := Int.floor_nonneg.mpr (by linarith)
    have h2 : (0:ℤ) ≤ ⌊-x * 100 + 1/2⌋ := Int.floor_nonneg.mpr (by nlinarith)
    omega
  · have := Int.floor_mono (show -y * 100 + 1/2 ≤ -x * 100 + 1/2 by linarith)
    omega

lemma clamp2_mono {x y : ℚ} (h : x ≤ y) : clamp2 x ≤ clamp2 y := by
  unfold clamp2
  have := hup100_mono h
  have hc : ((hup100 x : ℤ) : ℚ) ≤ ((hup100 y : ℤ) : ℚ) := by exact_mod_cast this
  linarith

lemma clamp2_form (x : ℚ) : ∃ n : ℤ, clamp2 x = (n : ℚ) / 100 :=
  ⟨hup100 x, rfl⟩

lemma bonusCond_mono_d (a : Assessment) {d1 d2 : ℚ} (h : d1 ≤ d2)
    (hb : bonusCond a d1) : bonusCond a d2 := by
  obtain ⟨h1, h2, h3, h4, h5⟩ := hb
  exact ⟨h1, h2, h3, by linarith, h5⟩

set_option maxHeartbeats 2000000 in
/-- The sequential price updates of rawPrice, regrouped as one sum. -/
lemma rawPrice_decomp (a : Assessment) (reference_price d : ℚ) :
    rawPrice a reference_price d =
      reference_price
      + (if bonusCond a d then (2000:ℚ) else 0)
      - (if a.moisture_content ≥ 14 then
            (a.moisture_content - 14) * reference_price * (2/1000) else 0)
      - (if a.group1_defects > 4 then (a.group1_defects - 4) * 50 else 0)
      - (if a.group2_defects > 10 then (a.group2_defects - 10) * 20 else 0)
      + (if d < 78 then -((78 - d) * 50)
         else if d > 82 then (d - 82) * 50 else 0)
      - (a.pods * 10 + a.husks * 10 + a.stones * 20)
      - (if a.below_screen_12 > 1 then (a.below_screen_12 - 1) * 30 else 0)
      + (match a.discretion with | some disc => disc | none => 0) := by
  rcases hd : a.discretion with _ | disc <;>
    simp only [rawPrice, hd] <;> split_ifs <;> ring

lemma rawPrice_mono_d (a : Assessment) (reference_price : ℚ) {d1 d2 : ℚ}
    (h : d1 ≤ d2) :
    rawPrice a reference_price d1 ≤ rawPrice a reference_price d2 := by
  have hbonus : (if bonusCond a d1 then (2000:ℚ) else 0)
      ≤ (if bonusCond a d2 then (2000:ℚ) else 0) := by
    split_ifs with hb1 hb2
    · linarith
    · exact absurd (bonusCond_mono_d a h hb1) hb2
    · linarith
    · linarith
  have hout : (if d1 < 78 then -((78 - d1) * 50)
        else if d1 > 82 then (d1 - 82) * 50 else 0)
      ≤ (if d2 < 78 then -((78 - d2) * 50)
        else if d2 > 82 then (d2 - 82) * 50 else 0) := by
    split_ifs <;> linarith
  rw [rawPrice_decomp, rawPrice_decomp]
  rcases a.discretion with _ | disc <;> linarith

lemma rawPrice_mono_m (a : Assessment) {m2 reference_price : ℚ}
    (h14 : 14 < a.moisture_content) (hm : a.moisture_content < m2)
    (hr : 0 ≤ reference_price) (d : ℚ) :
    rawPrice { a with moisture_content := m2 } reference_price d
      ≤ rawPrice a reference_price d := by
  have key : (a.moisture_content - 14) * reference_price * (2/1000)
      ≤ (m2 - 14) * reference_price * (2/1000) := by
    nlinarith [mul_nonneg (show (0:ℚ) ≤ m2 - a.moisture_content by linarith) hr]
  have hb1 : ¬ bonusCond { a with moisture_content := m2 } d := by
    intro hb
    have h13 : m2 ≤ 13 := hb.2.2.1
    linarith
  have hb2 : ¬ bonusCond a d := by
    intro hb
    have h13 : a.moisture_content ≤ 13 := hb.2.2.1
    linarith
  rw [rawPrice_decomp, rawPrice_decomp]
  rw [if_neg hb1, if_neg hb2]
  dsimp only
  rw [if_pos (show m2 ≥ 14 by linarith),
      if_pos (show a.moisture_content ≥ 14 by linarith)]
  linarith

lemma derived_out_mono (a : Assessment) {m2 : ℚ} (hm : a.moisture_content ≤ m2)
    {d1 d2 : ℚ} (h1 : compute_derived_outturn a = some d1)
    (h2 : compute_derived_outturn { a with moisture_content := m2 } = some d2) :
    d2 ≤ d1 := by
  unfold compute_derived_outturn at h1 h2
  dsimp only at h2
  by_cases hg : a.below_screen_12 > 3
  · rw [if_pos hg] at h1
    cases h1
  · rw [if_neg hg] at h1
    rw [if_neg hg] at h2
    have e1 := Option.some.inj h1
    have e2 := Option.some.inj h2
    rw [← e1, ← e2]
    apply clamp2_mono
    have := excess_mono (x := a.moisture_content) (y := m2) 14 hm
    linarith

lemma final_price_spec {a : Assessment} {p : ℚ}
    (h : compute_final_price a = some p) :
    compute_rejection_reasons a = [] ∧
    ∃ d ref, compute_derived_outturn a = some d ∧ a.ref_price = some ref ∧
      p = max 0 (clamp2 (rawPrice a ref d)) := by
  unfold compute_final_price at h
  rcases hre : compute_rejection_reasons a with _ | ⟨s, rest⟩ <;> rw [hre] at h
  · rcases hd : compute_derived_outturn a with _ | d <;> rw [hd] at h
    · simp at h
    · rcases hrp : a.ref_price with _ | ref <;> rw [hrp] at h
      · simp at h
      · exact ⟨rfl, d, ref, rfl, rfl, (Option.some.inj h).symm⟩
  · simp at h

/-! Concrete assessments used by witnesses and counterexamples. -/

/-- A lot with no rejection reason, derived outturn 100 and the bonus. -/
def sampleGood : Assessment :=
  { ref_price := some 5000, discretion := some 0, moisture_content := 12,
    group1_defects := 1, group2_defects := 3, below_screen_12 := 1,
    pods := 0, husks := 0, stones := 0 }

/-- A measurement with a missing reference price. -/
def noRefSample : Assessment :=
  { ref_price := none, moisture_content := 10, group1_defects := 0,
    group2_defects := 0, below_screen_12 := 0, pods := 0, husks := 0,
    stones := 0 }

/-- A lot rejected by the below-screen-12 gate. -/
def rejSample : Assessment :=
  { ref_price := some 5000, moisture_content := 10, group1_defects := 0,
    group2_defects := 0, below_screen_12 := 4, pods := 0, husks := 0,
    stones := 0 }

/-- C1: after refresh_computed_fields the decision is Rejected exactly when
the rejection-reason list is non-empty, and otherwise it is Accepted when
the derived outturn is available and Pending when it is not. -/
theorem c1_decision_rejected_iff (a : Assessment) :
    ((refresh_computed_fields a).decision = "Rejected" ↔
      compute_rejection_reasons a ≠ []) ∧
    (compute_rejection_reasons a = [] →
      (refresh_computed_fields a).decision =
        if (compute_derived_outturn a).isSome then "Accepted" else "Pending") := by
  have hdec : (refresh_computed_fields a).decision =
      if compute_rejection_reasons a ≠ [] then "Rejected"
      else if (compute_derived_outturn a).isSome then "Accepted"
      else "Pending" := rfl
  by_cases h : compute_rejection_reasons a = []
  · have h2 : (refresh_computed_fields a).decision =
        if (compute_derived_outturn a).isSome then "Accepted" else "Pending" := by
      rw [hdec, if_neg (not_not_intro h)]
    refine ⟨?_, fun _ => h2⟩
    rw [h2]
    constructor
    · intro hc
      exfalso
      by_cases hs : (compute_derived_outturn a).isSome
      · rw [if_pos hs] at hc
        exact absurd hc (by decide)
      · rw [if_neg hs] at hc
        exact absurd hc (by decide)
    · intro hc
      exact absurd h hc
  · have h2 : (refresh_computed_fields a).decision = "Rejected" := by
      rw [hdec, if_pos h]
    exact ⟨by rw [h2]; exact iff_of_true rfl h, fun hc => absurd hc h⟩

/-- C1 witness at a concrete accepted lot. -/
theorem c1_decision_rejected_iff_witness :
    ((refresh_computed_fields sampleGood).decision = "Rejected" ↔
      compute_rejection_reasons sampleGood ≠ []) ∧
    (refresh_computed_fields sampleGood).decision =
      (if (compute_derived_outturn sampleGood).isSome then "Accepted"
       else "Pending") :=
  ⟨(c1_decision_rejected_iff sampleGood).1,
   (c1_decision_rejected_iff sampleGood).2
     (by norm_num [compute_rejection_reasons, sampleGood])⟩

/-- C2: the final price is None whenever a rejection reason fired, the
derived outturn is None, or the reference price is missing. -/
theorem c2_final_price_none (a : Assessment)
    (h : compute_rejection_reasons a ≠ [] ∨ compute_derived_outturn a = none
          ∨ a.ref_price = none) :
    compute_final_price a = none := by
  rcases hre : compute_rejection_reasons a with _ | ⟨s, rest⟩ <;>
    rcases hd : compute_derived_outturn a with _ | d <;>
    rcases hrp : a.ref_price with _ | ref <;>
    simp only [compute_final_price, hre, hd, hrp]
  rcases h with h | h | h
  · exact absurd hre h
  · rw [hd] at h
    cases h
  · rw [hrp] at h
    cases h

/-- C2 witness: a missing reference price alone forces a None final
price. -/
theorem c2_final_price_none_witness :
    noRefSample.ref_price = none ∧ compute_final_price noRefSample = none :=
  ⟨rfl, c2_final_price_none noRefSample (Or.inr (Or.inr rfl))⟩

/-- C3: a computed final price is never negative and is an integer number
of hundredths, that is a value rounded to two decimal places. -/
theorem c3_final_price_nonneg (a : Assessment) (p : ℚ)
    (h : compute_final_price a = some p) :
    0 ≤ p ∧ ∃ n : ℕ, p = (n : ℚ) / 100 := by
  obtain ⟨-, d, ref, -, -, hp⟩ := final_price_spec h
  subst hp
  refine ⟨le_max_left 0 _, ?_⟩
  rcases le_or_lt (hup100 (rawPrice a ref d)) 0 with hle | hlt
  · refine ⟨0, ?_⟩
    have hc : clamp2 (rawPrice a ref d) ≤ 0 := by
      unfold clamp2
      have hx : ((hup100 (rawPrice a ref d) : ℤ) : ℚ) ≤ 0 := by exact_mod_cast hle
      linarith
    rw [max_eq_left hc]
    norm_num
  · refine ⟨(hup100 (rawPrice a ref d)).toNat, ?_⟩
    have hc : (0:ℚ) ≤ clamp2 (rawPrice a ref d) := by
      unfold clamp2
      have hx : (0:ℚ) ≤ ((hup100 (rawPrice a ref d) : ℤ) : ℚ) := by
        exact_mod_cast le_of_lt hlt
      linarith
    rw [max_eq_right hc]
    unfold clamp2
    have ht : ((hup100 (rawPrice a ref d)).toNat : ℤ)
        = hup100 (rawPrice a ref d) := Int.toNat_of_nonneg (le_of_lt hlt)
    have hq : (((hup100 (rawPrice a ref d)).toNat : ℕ) : ℚ)
        = ((hup100 (rawPrice a ref d) : ℤ) : ℚ) := by exact_mod_cast ht
    rw [hq]

/-- C3 witness at a concrete accepted lot with price 7900.00. -/
theorem c3_final_price_nonneg_witness :
    compute_final_price sampleGood = some 7900 ∧
    0 ≤ (7900:ℚ) ∧ ∃ n : ℕ, (7900:ℚ) = (n : ℚ) / 100 := by
  have hfp : compute_final_price sampleGood = some 7900 := by
    norm_num [compute_final_price, compute_rejection_reasons,
      compute_derived_outturn, sampleGood, excess, clamp2, hup100,
      rawPrice, bonusCond]
  exact ⟨hfp, c3_final_price_nonneg sampleGood 7900 hfp⟩

/-- C4: when below_screen_12 is at most 3 the derived outturn is present
and equals the excess-over-threshold formula of the specification,
rounded half-up to two decimal places. -/
theorem c4_derived_formula (a : Assessment) (h : a.below_screen_12 ≤ 3) :
    compute_derived_outturn a = some (clamp2 (100
      - max 0 (a.moisture_content - 14)
      - max 0 (a.group1_defects - 4)
      - max 0 (a.group2_defects - 10)
      - a.pods - a.husks - a.stones
      - max 0 (a.below_screen_12 - 1))) := by
  unfold compute_derived_outturn
  rw [if_neg (not_lt.mpr h), excess_eq_max, excess_eq_max, excess_eq_max,
      excess_eq_max]

/-- C4 witness at a concrete lot with below_screen_12 = 1. -/
theorem c4_derived_formula_witness :
    sampleGood.below_screen_12 ≤ 3 ∧
    compute_derived_outturn sampleGood = some (clamp2 (100
      - max 0 (sampleGood.moisture_content - 14)
      - max 0 (sampleGood.group1_defects - 4)
      - max 0 (sampleGood.group2_defects - 10)
      - sampleGood.pods - sampleGood.husks - sampleGood.stones
      - max 0 (sampleGood.below_screen_12 - 1))) :=
  ⟨by norm_num [sampleGood],
   c4_derived_formula sampleGood (by norm_num [sampleGood])⟩

/-- A lot whose defect percentages are each within [0,100] but sum past
100, producing a negative clean outturn. -/
def negCleanSample : Assessment :=
  { ref_price := some 1000, moisture_content := 10, group1_defects := 60,
    group2_defects := 60, below_screen_12 := 0, pods := 0, husks := 0,
    stones := 0 }

/-- C7: the clean outturn is the half-up two-decimal rounding of
100 minus the sum of the six deduction percentages, with no clamping at
zero; a valid measurement can therefore store a negative clean outturn. -/
theorem c7_clean_outturn_formula :
    (∀ a : Assessment, compute_clean_outturn a =
      clamp2 (100 - (a.group1_defects + a.group2_defects + a.pods + a.husks
                      + a.stones + a.below_screen_12))) ∧
    (∃ a : Assessment,
      (0 ≤ a.group1_defects ∧ a.group1_defects ≤ 100) ∧
      (0 ≤ a.group2_defects ∧ a.group2_defects ≤ 100) ∧
      (0 ≤ a.pods ∧ a.pods ≤ 100) ∧
      (0 ≤ a.husks ∧ a.husks ≤ 100) ∧
      (0 ≤ a.stones ∧ a.stones ≤ 100) ∧
      (0 ≤ a.below_screen_12 ∧ a.below_screen_12 ≤ 100) ∧
      compute_clean_outturn a < 0) := by
  constructor
  · intro a
    unfold compute_clean_outturn
    congr 1
    ring
  · refine ⟨negCleanSample, ?_, ?_, ?_, ?_, ?_, ?_, ?_⟩ <;>
      norm_num [negCleanSample, compute_clean_outturn, clamp2, hup100]

/-- Input fields of an assessment: everything the computations read. -/
def inputFields (a : Assessment) :
    Option ℚ × Option ℚ × ℚ × ℚ × ℚ × ℚ × ℚ × ℚ × ℚ × ℚ :=
  (a.ref_price, a.discretion, a.moisture_content, a.group1_defects,
   a.group2_defects, a.below_screen_12, a.pods, a.husks, a.stones,
   a.offered_price)

/-- Result fields recomputed by refresh_computed_fields. -/
def resultFields (a : Assessment) :
    Option ℚ × Option ℚ × Option ℚ × String × String :=
  (a.clean_outturn, a.derived_outturn, a.final_price, a.decision,
   a.decision_reasons)

/-- C8: evaluation is deterministic, equal inputs give equal result
fields, and refresh_computed_fields is idempotent. -/
theorem c8_deterministic_idempotent (a b : Assessment)
    (h : inputFields a = inputFields b) :
    resultFields (refresh_computed_fields a)
      = resultFields (refresh_computed_fields b) ∧
    refresh_computed_fields (refresh_computed_fields a)
      = refresh_computed_fields a := by
  obtain ⟨arp, adis, am, ag1, ag2, ab12, apo, ahu, ast, afm, aof,
    acl, ade, afi, adec, adr⟩ := a
  obtain ⟨brp, bdis, bm, bg1, bg2, bb12, bpo, bhu, bst, bfm, bof,
    bcl, bde, bfi, bdec, bdr⟩ := b
  simp only [inputFields, Prod.mk.injEq] at h
  obtain ⟨h1, h2, h3, h4, h5, h6, h7, h8, h9, h10⟩ := h
  subst h1 h2 h3 h4 h5 h6 h7 h8 h9 h10
  exact ⟨rfl, rfl⟩

/-- C8 witness: determinism and idempotence at a concrete lot. -/
theorem c8_deterministic_idempotent_witness :
    resultFields (refresh_computed_fields sampleGood)
      = resultFields (refresh_computed_fields sampleGood) ∧
    refresh_computed_fields (refresh_computed_fields sampleGood)
      = refresh_computed_fields sampleGood :=
  c8_deterministic_idempotent sampleGood sampleGood rfl

/-- C10: the derived outturn is None exactly when below_screen_12 exceeds
3, that situation always fires a rejection reason, and consequently the
decision after evaluation is Accepted or Rejected, never Pending. -/
theorem c10_never_pending (a : Assessment) :
    (compute_derived_outturn a = none ↔ a.below_screen_12 > 3) ∧
    (a.below_screen_12 > 3 → compute_rejection_reasons a ≠ []) ∧
    ((refresh_computed_fields a).decision = "Accepted" ∨
     (refresh_computed_fields a).decision = "Rejected") := by
  have hdec : (refresh_computed_fields a).decision =
      if compute_rejection_reasons a ≠ [] then "Rejected"
      else if (compute_derived_outturn a).isSome then "Accepted"
      else "Pending" := rfl
  have hgate : compute_derived_outturn a = none ↔ a.below_screen_12 > 3 := by
    unfold compute_derived_outturn
    split_ifs with hg
    · exact iff_of_true rfl hg
    · constructor
      · intro hc
        cases hc
      · intro hc
        exact absurd hc hg
  have hfire : a.below_screen_12 > 3 → compute_rejection_reasons a ≠ [] := by
    intro hg
    unfold compute_rejection_reasons
    rw [if_pos hg]
    simp
  refine ⟨hgate, hfire, ?_⟩
  by_cases h : compute_rejection_reasons a = []
  · left
    have hb : ¬ a.below_screen_12 > 3 := fun hg => hfire hg h
    have hs : (compute_derived_outturn a).isSome := by
      unfold compute_derived_outturn
      rw [if_neg hb]
      rfl
    rw [hdec, if_neg (not_not_intro h), if_pos hs]
  · right
    rw [hdec, if_pos h]

/-- C10 witness: the below-screen-12 gate fires a reason at a rejected
lot. -/
theorem c10_never_pending_witness :
    (compute_derived_outturn rejSample = none ↔
      rejSample.below_screen_12 > 3) ∧
    compute_rejection_reasons rejSample ≠ [] ∧
    ((refresh_computed_fields rejSample).decision = "Accepted" ∨
     (refresh_computed_fields rejSample).decision = "Rejected") :=
  ⟨(c10_never_pending rejSample).1,
   (c10_never_pending rejSample).2.1 (by norm_num [rejSample]),
   (c10_never_pending rejSample).2.2⟩

/-- Scenario A of the specification: moisture 12, group1 0.5, group2 3,
below_screen_12 0.5, no pods, husks or stones, reference price 5000,
discretion 0. -/
def scenarioA : Assessment :=
  { ref_price := some 5000, discretion := some 0, moisture_content := 12,
    group1_defects := 1/2, group2_defects := 3, below_screen_12 := 1/2,
    pods := 0, husks := 0, stones := 0 }

/-- C5 counterexample: on the scenario A input the engine returns
7900.00, not the 7000.00 the claim expects, because the derived outturn
of 100 also earns the (100 - 82) * 50 = 900 outturn premium. -/
theorem c5_counterexample :
    compute_final_price scenarioA = some 7900 ∧
    compute_final_price scenarioA ≠ some 7000 := by
  have h : compute_final_price scenarioA = some 7900 := by
    norm_num [compute_final_price, compute_rejection_reasons,
      compute_derived_outturn, scenarioA, excess, clamp2, hup100,
      rawPrice, bonusCond]
  refine ⟨h, ?_⟩
  rw [h]
  intro hc
  have := Option.some.inj hc
  norm_num at this

/-- C5 amended: scenario A is accepted with the bonus applied, the
derived outturn is 100, and the final price is 7900.00 (the bonus 2000
plus the outturn premium 900 on top of the reference price 5000). -/
theorem c5_amended :
    (refresh_computed_fields scenarioA).decision = "Accepted" ∧
    compute_derived_outturn scenarioA = some 100 ∧
    bonusCond scenarioA 100 ∧
    compute_final_price scenarioA = some 7900 := by
  refine ⟨?_, ?_, ?_, ?_⟩
  · norm_num [refresh_computed_fields, compute_rejection_reasons,
      compute_derived_outturn, scenarioA, excess, clamp2, hup100]
  · norm_num [compute_derived_outturn, scenarioA, excess, clamp2, hup100]
  · norm_num [bonusCond, scenarioA]
  · norm_num [compute_final_price, compute_rejection_reasons,
      compute_derived_outturn, scenarioA, excess, clamp2, hup100,
      rawPrice, bonusCond]

/-- The two strict monotonicity statements of the claim, written as the
claim states them: strictly larger moisture above 14 gives a strictly
smaller non-null final price, and a strictly larger derived outturn above
82 gives a strictly larger final price. -/
def strict_monotonicity_claim : Prop :=
  (∀ (a : Assessment) (m2 p q : ℚ),
      14 < a.moisture_content → a.moisture_content < m2 →
      compute_final_price a = some p →
      compute_final_price { a with moisture_content := m2 } = some q →
      q < p) ∧
  (∀ (a : Assessment) (reference_price d1 d2 : ℚ),
      82 < d1 → d1 < d2 →
      max 0 (clamp2 (rawPrice a reference_price d1))
        < max 0 (clamp2 (rawPrice a reference_price d2)))

/-- A lot whose price is driven below zero by a negative discretion, so
the zero floor makes two different moistures price identically. -/
def clampZeroSample : Assessment :=
  { ref_price := some 5000, discretion := some (-100000),
    moisture_content := 15, group1_defects := 0, group2_defects := 0,
    below_screen_12 := 0, pods := 0, husks := 0, stones := 0 }

/-- C6 counterexample: moistures 15 and 16 both price at 0.00 because of
the non-negative floor, refuting strictness. -/
theorem c6_counterexample : ¬ strict_monotonicity_claim := by
  intro h
  have hA : compute_final_price clampZeroSample = some 0 := by
    norm_num [compute_final_price, compute_rejection_reasons,
      compute_derived_outturn, clampZeroSample, excess, clamp2, hup100,
      rawPrice, bonusCond]
  have hB : compute_final_price
      { clampZeroSample with moisture_content := 16 } = some 0 := by
    norm_num [compute_final_price, compute_rejection_reasons,
      compute_derived_outturn, clampZeroSample, excess, clamp2, hup100,
      rawPrice, bonusCond]
  have h1 := h.1 clampZeroSample 16 0 0
    (by norm_num [clampZeroSample]) (by norm_num [clampZeroSample]) hA hB
  exact absurd h1 (lt_irrefl 0)

/-- C6 amended: with a non-negative reference price the dependence is
weakly monotone, a larger moisture above 14 never increases the final
price and a larger derived outturn never decreases it; strictness fails
at the zero floor. -/
theorem c6_amended :
    (∀ (a : Assessment) (m2 p q : ℚ),
        14 < a.moisture_content → a.moisture_content < m2 →
        (∀ r, a.ref_price = some r → 0 ≤ r) →
        compute_final_price a = some p →
        compute_final_price { a with moisture_content := m2 } = some q →
        q ≤ p) ∧
    (∀ (a : Assessment) (reference_price d1 d2 : ℚ),
        82 < d1 → d1 ≤ d2 →
        max 0 (clamp2 (rawPrice a reference_price d1))
          ≤ max 0 (clamp2 (rawPrice a reference_price d2))) := by
  constructor
  · intro a m2 p q h14 hm hr hp hq
    obtain ⟨hre1, d1, ref1, hd1, hrp1, hpe⟩ := final_price_spec hp
    obtain ⟨hre2, d2, ref2, hrd2, hrp2, hqe⟩ := final_price_spec hq
    have he : a.ref_price = some ref2 := hrp2
    have hrr : ref1 = ref2 := Option.some.inj (hrp1.symm.trans he)
    subst hrr
    have hdd : d2 ≤ d1 := derived_out_mono a (le_of_lt hm) hd1 hrd2
    have hchain : rawPrice { a with moisture_content := m2 } ref1 d2
        ≤ rawPrice a ref1 d1 :=
      le_trans (rawPrice_mono_d { a with moisture_content := m2 } ref1 hdd)
        (rawPrice_mono_m a h14 hm (hr ref1 hrp1) d1)
    rw [hpe, hqe]
    exact max_le_max (le_refl 0) (clamp2_mono hchain)
  · intro a reference_price d1 d2 h82 hdd
    exact max_le_max (le_refl 0)
      (clamp2_mono (rawPrice_mono_d a reference_price hdd))

/-- A clean lot at moisture 15, used to instantiate the monotonicity
theorem concretely. -/
def monoSample : Assessment :=
  { ref_price := some 5000, discretion := some 0, moisture_content := 15,
    group1_defects := 0, group2_defects := 0, below_screen_12 := 0,
    pods := 0, husks := 0, stones := 0 }

/-- C6 witness: at moisture 15 versus 16 the prices are 5840.00 and
5780.00, and the weak monotonicity theorem applies to them. -/
theorem c6_amended_witness :
    compute_final_price monoSample = some 5840 ∧
    compute_final_price { monoSample with moisture_content := 16 }
      = some 5780 ∧
    (5780:ℚ) ≤ 5840 ∧
    max 0 (clamp2 (rawPrice monoSample 5000 83))
      ≤ max 0 (clamp2 (rawPrice monoSample 5000 84)) := by
  have hA : compute_final_price monoSample = some 5840 := by
    norm_num [compute_final_price, compute_rejection_reasons,
      compute_derived_outturn, monoSample, excess, clamp2, hup100,
      rawPrice, bonusCond]
  have hB : compute_final_price { monoSample with moisture_content := 16 }
      = some 5780 := by
    norm_num [compute_final_price, compute_rejection_reasons,
      compute_derived_outturn, monoSample, excess, clamp2, hup100,
      rawPrice, bonusCond]
  refine ⟨hA, hB, ?_, ?_⟩
  · refine c6_amended.1 monoSample 16 5840 5780
      (by norm_num [monoSample]) (by norm_num [monoSample]) ?_ hA hB
    intro r hr
    have hr2 : some (5000:ℚ) = some r := hr
    have := Option.some.inj hr2
    rw [← this]
    norm_num
  · exact c6_amended.2 monoSample 5000 83 84 (by norm_num) (by norm_num)

/-- An accepted lot priced at 7900.00 whose offered price is 100. -/
def offeredSample : Assessment :=
  { ref_price := some 5000, discretion := some 0, moisture_content := 12,
    group1_defects := 1, group2_defects := 3, below_screen_12 := 1,
    pods := 0, husks := 0, stones := 0, offered_price := 100 }

/-- C9 counterexample: for a lot of 2 kg whose computed final price is
7900.00 but whose offered price is 100, the posted payable is 200.0, not
final_price times quantity, because total_payable reads
analysis_price_ugx, which is the offered price. -/
theorem c9_counterexample :
    total_payable offeredSample ⟨2⟩ = 200 ∧
    compute_final_price offeredSample = some 7900 ∧
    (200:ℚ) ≠ 7900 * 2 := by
  refine ⟨?_, ?_, by norm_num⟩
  · norm_num [total_payable, _q2, quantize_tenth, roundHalfEven,
      analysis_price_ugx, offeredSample]
  · norm_num [compute_final_price, compute_rejection_reasons,
      compute_derived_outturn, offeredSample, excess, clamp2, hup100,
      rawPrice, bonusCond]

/-- C9 amended: the payable posted on save is the offered price (exposed
as analysis_price_ugx), not the final price, multiplied by the lot
quantity and quantized to one decimal place. -/
theorem c9_amended (a : Assessment) (c : CoffeePurchase) :
    total_payable a c = quantize_tenth (a.offered_price * (c.quantity : ℚ)) ∧
    analysis_price_ugx a = a.offered_price ∧
    ∃ n : ℤ, total_payable a c = (n : ℚ) / 10 :=
  ⟨rfl, rfl, ⟨roundHalfEven (a.offered_price * (c.quantity : ℚ) * 10), rfl⟩⟩
